import Mathlib

/-!
Verification of the on-demand image thumbnail pipeline of the Recipe-Bliss
repository (`server/replit_integrations/object_storage/routes.ts`).

The Express route handlers are embedded shallowly: the stateful handler
becomes a pure function from an abstract object store and a parsed query to
an `HttpResponse` together with an ordered trace of the observable effects
(store lookups, metadata fetches, header writes, stream opens, body writes).
JavaScript's `parseInt` is modelled exactly (whitespace skip, optional sign,
`0x` hex prefix, longest digit prefix, NaN as `none`).

The object-store client itself (`objectStorage.ts`: `getObjectEntityFile`,
`downloadObject`) is not part of the sources; where a property depends on it
the client is modelled from the spec, and those definitions carry a
`Modelled from the spec:` doc comment.
-/

/-- Byte-range test for an ASCII decimal digit, as used by `parseInt`'s
digit scan (JS `parseInt` consumes the longest prefix of digits). -/
def digitCh (c : Char) : Bool := 48 ≤ c.toNat && c.toNat ≤ 57

/-- Whitespace skipped by JS `parseInt` before parsing (space, tab, CR, LF). -/
def whitespaceCh (c : Char) : Bool :=
  c.toNat = 32 || c.toNat = 9 || c.toNat = 13 || c.toNat = 10

/-- Hex-digit test for the `0x` branch of JS `parseInt`. -/
def hexCh (c : Char) : Bool :=
  digitCh c || (97 ≤ c.toNat && c.toNat ≤ 102) || (65 ≤ c.toNat && c.toNat ≤ 70)

/-- Numeric value of one decimal digit character. -/
def digitVal (c : Char) : Nat := c.toNat - 48

/-- Numeric value of one hex digit character. -/
def hexVal (c : Char) : Nat :=
  if digitCh c then c.toNat - 48
  else if 97 ≤ c.toNat then c.toNat - 87
  else c.toNat - 55

/-- Value of a list of decimal digit characters, most significant first. -/
def digitsVal (ds : List Char) : Nat :=
  ds.foldl (fun a c => 10 * a + digitVal c) 0

/-- Longest decimal digit prefix, `none` when there is no digit (JS NaN). -/
def parseDecDigits (cs : List Char) : Option Nat :=
  let ds := cs.takeWhile digitCh
  if ds.isEmpty then none else some (digitsVal ds)

/-- Longest hex digit prefix, `none` when there is no hex digit (JS NaN). -/
def parseHexDigits (cs : List Char) : Option Nat :=
  let ds := cs.takeWhile hexCh
  if ds.isEmpty then none
  else some (ds.foldl (fun a c => 16 * a + hexVal c) 0)

/-- Unsigned part of JS `parseInt` with no explicit radix: a `0x`/`0X`
prefix selects hexadecimal, otherwise the longest decimal digit prefix. -/
def parseUnsigned (cs : List Char) : Option Nat :=
  match cs with
  | c0 :: c1 :: rest =>
      if c0 = '0' && (c1 = 'x' || c1 = 'X') then parseHexDigits rest
      else parseDecDigits (c0 :: c1 :: rest)
  | _ => parseDecDigits cs

/-- Sign handling of JS `parseInt` once whitespace is gone: an optional
single `-` or `+`, then the unsigned part. -/
def jsParseIntCore : List Char → Option Int
  | [] => none
  | c :: rest =>
      if c = '-' then (parseUnsigned rest).map (fun n => -(Int.ofNat n))
      else if c = '+' then (parseUnsigned rest).map (fun n => Int.ofNat n)
      else (parseUnsigned (c :: rest)).map (fun n => Int.ofNat n)

/-- JS `parseInt(s)` (radix argument omitted, as in the route code): skip
leading whitespace, read an optional sign, then the unsigned part; `none`
models the NaN result. -/
def jsParseInt (s : String) : Option Int :=
  jsParseIntCore (s.data.dropWhile whitespaceCh)

/-- `Math.max(lo, Math.min(hi, x))`, the clamp expression used for width,
height and quality in the thumbnails route. -/
def clampInt (lo hi x : Int) : Int := max lo (min hi x)

/-- `MIN_SIZE` from the thumbnails route. -/
def MIN_SIZE : Int := 10

/-- `MAX_SIZE` from the thumbnails route. -/
def MAX_SIZE : Int := 800

/-- `MIN_QUALITY` from the thumbnails route. -/
def MIN_QUALITY : Int := 10

/-- `MAX_QUALITY` from the thumbnails route. -/
def MAX_QUALITY : Int := 90

/-- `DEFAULT_WIDTH` from the thumbnails route. -/
def DEFAULT_WIDTH : Int := 400

/-- `DEFAULT_HEIGHT` from the thumbnails route. -/
def DEFAULT_HEIGHT : Int := 300

/-- `DEFAULT_QUALITY` from the thumbnails route. -/
def DEFAULT_QUALITY : Int := 75

/-- One parameter-validation block of the thumbnails route: absent means the
default; present means `parseInt`, reject NaN or non-positive with the
route's error message, then clamp into `[lo, hi]`. -/
def validateParam (raw : Option String) (dflt lo hi : Int) (msg : String) :
    Except String Int :=
  match raw with
  | none => Except.ok dflt
  | some s =>
      match jsParseInt s with
      | none => Except.error msg
      | some parsed =>
          if parsed ≤ 0 then Except.error msg
          else Except.ok (clampInt lo hi parsed)

/-- The raw optional query strings `w`, `h`, `q` of a thumbnails request. -/
structure Query where
  w : Option String
  h : Option String
  q : Option String
  deriving DecidableEq, Repr

/-- The three validation blocks of the thumbnails route in source order
(width, then height, then quality), with the route's early-return on the
first failure. -/
def validatedParams (query : Query) : Except String (Int × Int × Int) :=
  match validateParam query.w DEFAULT_WIDTH MIN_SIZE MAX_SIZE "Invalid width parameter" with
  | Except.error msg => Except.error msg
  | Except.ok width =>
  match validateParam query.h DEFAULT_HEIGHT MIN_SIZE MAX_SIZE "Invalid height parameter" with
  | Except.error msg => Except.error msg
  | Except.ok height =>
  match validateParam query.q DEFAULT_QUALITY MIN_QUALITY MAX_QUALITY "Invalid quality parameter" with
  | Except.error msg => Except.error msg
  | Except.ok quality => Except.ok (width, height, quality)

/-- A stored object: its metadata fields as loosely-typed strings, exactly
as the GCS metadata surfaces them to the route (`contentType` and `size`
may each be absent), plus the stored byte content. -/
structure StoredObject where
  contentType : Option String
  size : Option String
  bytes : List Nat
  deriving DecidableEq, Repr

/-- `parseInt(metadata.size as string) || 0` from the thumbnails route: an
absent `size` coerces to a string that parses as NaN, and `|| 0` turns both
NaN and `0` into `0`. -/
def jsParseIntOrZero (size : Option String) : Int :=
  match size with
  | none => 0
  | some s =>
      match jsParseInt s with
      | none => 0
      | some n => if n = 0 then 0 else n

/-- `sharp().resize(width, height, { fit, position }).jpeg({ quality })`
as configured by the thumbnails route. -/
structure TransformSpec where
  width : Int
  height : Int
  fit : String
  position : String
  quality : Int
  deriving DecidableEq, Repr

/-- The transformer built at the pipe site of the thumbnails route. -/
def mkTransformer (width height quality : Int) : TransformSpec :=
  { width := width, height := height, fit := "cover", position := "center",
    quality := quality }

/-- Observable effects of a handler run, in order: object lookup, metadata
fetch, header writes, read-stream open, transform attach, body write,
raw passthrough download. -/
inductive Event where
  | getObjectEntityFile (path : String)
  | getMetadata
  | setHeader (name value : String)
  | createReadStream
  | transform (width height quality : Int)
  | writeBody
  deriving DecidableEq, Repr

/-- What a handler run sends: HTTP status, the headers set before the body,
and the body itself. -/
inductive ResponseBody where
  | json (s : String)
  | streamedBytes (bs : List Nat)
  | transformed (ts : TransformSpec) (src : List Nat)
  deriving DecidableEq, Repr

structure HttpResponse where
  status : Nat
  headers : List (String × String)
  body : ResponseBody
  deriving DecidableEq, Repr

/-- `res.status(code).json({ error: msg })` — a structured JSON error
response with no extra headers. -/
def jsonResponse (code : Nat) (msg : String) : HttpResponse :=
  { status := code, headers := [],
    body := ResponseBody.json ("\x7b\"error\":\"" ++ msg ++ "\"\x7d") }

/-- Modelled from the spec: the Object Store Client's raw
`downloadPassthrough(path, response)` (`downloadObject` in the routes),
which is not under the given sources. Per the spec it streams the stored
bytes unmodified with the original content-type preserved and the
long-lived public cache header, and is used both by the thumbnails
non-image branch and by the plain object-serving endpoint. -/
def downloadObject (obj : StoredObject) : HttpResponse × List Event :=
  let ct := obj.contentType.getD "application/octet-stream"
  ( { status := 200,
      headers := [("Content-Type", ct), ("Cache-Control", "public, max-age=31536000")],
      body := ResponseBody.streamedBytes obj.bytes },
    [Event.setHeader "Content-Type" ct,
     Event.setHeader "Cache-Control" "public, max-age=31536000",
     Event.writeBody] )

/-- `contentType.startsWith("image/")` as used by the route, restated over
the underlying character lists so that it computes by reduction. -/
def strStartsWith (s pre : String) : Bool := pre.data.isPrefixOf s.data

/-- The part of the thumbnails route after a successful lookup: metadata
fetch, the 15 MiB size guard, the non-image passthrough branch, and the
header-set / sharp-pipe transform branch, in source order. -/
def thumbnailsCore (obj : StoredObject) (objectPath : String)
    (width height quality : Int) : HttpResponse × List Event :=
  let evs := [Event.getObjectEntityFile objectPath, Event.getMetadata]
  let contentType := obj.contentType.getD "application/octet-stream"
  let fileSize := jsParseIntOrZero obj.size
  if fileSize > 15 * 1024 * 1024 then
    (jsonResponse 400 "File too large for thumbnail generation", evs)
  else if !(strStartsWith contentType "image/") then
    let dl := downloadObject obj
    (dl.fst, evs ++ dl.snd)
  else
    ( { status := 200,
        headers := [("Content-Type", "image/jpeg"),
                    ("Cache-Control", "public, max-age=31536000")],
        body := ResponseBody.transformed (mkTransformer width height quality) obj.bytes },
      evs ++ [Event.setHeader "Content-Type" "image/jpeg",
              Event.setHeader "Cache-Control" "public, max-age=31536000",
              Event.createReadStream,
              Event.transform width height quality,
              Event.writeBody] )

/-- `GET /thumbnails/:objectPath(*)`. The abstract store maps an object
path to its stored object when it exists; a `none` lookup models
`getObjectEntityFile` throwing `ObjectNotFoundError`, which the route's
catch turns into the 404 response. Validation failures return before any
store access, so their trace is empty. -/
def thumbnailsHandler (store : String → Option StoredObject) (p : String)
    (query : Query) : HttpResponse × List Event :=
  match validatedParams query with
  | Except.error msg => (jsonResponse 400 msg, [])
  | Except.ok whq =>
      let objectPath := "/objects/" ++ p
      match store objectPath with
      | none => (jsonResponse 404 "Object not found", [Event.getObjectEntityFile objectPath])
      | some obj => thumbnailsCore obj objectPath whq.1 whq.2.1 whq.2.2

/-- `GET /objects/:objectPath(*)`: lookup then raw download; a missing
object yields the 404 response from the route's catch. -/
def objectsHandler (store : String → Option StoredObject) (reqPath : String) :
    HttpResponse × List Event :=
  match store reqPath with
  | none => (jsonResponse 404 "Object not found", [Event.getObjectEntityFile reqPath])
  | some obj =>
      let dl := downloadObject obj
      (dl.fst, Event.getObjectEntityFile reqPath :: dl.snd)

/-- The three stages of the composed pipe at the end of the transform
branch: the GCS read stream, the sharp transformer, and the HTTP response. -/
inductive Stage where
  | readStream
  | transformer
  | response
  deriving DecidableEq, Repr

/-- Node stream semantics of `src.pipe(dst)`: the call returns its
destination (so chained calls continue from `dst`), and error events are
not forwarded from `src` to `dst`. -/
def pipeReturn (_src dst : Stage) : Stage := dst

/-- The receiver of the single `.on("error", ...)` registration in the
route: the value of `readStream.pipe(transformer).pipe(res)`. -/
def errorListenerTarget : Stage :=
  pipeReturn (pipeReturn Stage.readStream Stage.transformer) Stage.response

/-- The stages of the pipeline that have an error listener attached. -/
def errorHandledStages : List Stage := [errorListenerTarget]

/-- All stages of the composed pipeline. -/
def pipelineStages : List Stage :=
  [Stage.readStream, Stage.transformer, Stage.response]

/-- The installed error callback: `if (!res.headersSent) res.status(500)
.json({ error: "Failed to process thumbnail" })`; after headers are sent it
does nothing further (the connection is abandoned). -/
def streamErrorReaction (headersSent : Bool) : Option HttpResponse :=
  if headersSent then none
  else some (jsonResponse 500 "Failed to process thumbnail")

/-- Value of a response header by name (first match wins). -/
def lookupHeader (name : String) : List (String × String) → Option String
  | [] => none
  | (n, v) :: rest => if n = name then some v else lookupHeader name rest

def headerValue (r : HttpResponse) (name : String) : Option String :=
  lookupHeader name r.headers

/-- The route's rejection condition for one present raw parameter:
`isNaN(parsed) || parsed <= 0`. -/
def badParam (raw : Option String) : Bool :=
  match raw with
  | none => false
  | some s =>
      match jsParseInt s with
      | none => true
      | some n => decide (n ≤ 0)

lemma validateParam_error_of_bad (raw : Option String) (dflt lo hi : Int)
    (msg : String) (h : badParam raw = true) :
    validateParam raw dflt lo hi msg = Except.error msg := by
  cases raw with
  | none => simp [badParam] at h
  | some s =>
      cases hp : jsParseInt s with
      | none => simp [validateParam, hp]
      | some n =>
          simp only [badParam, hp, decide_eq_true_eq] at h
          simp [validateParam, hp, h]

lemma validateParam_ok_of_good (raw : Option String) (dflt lo hi : Int)
    (msg : String) (h : badParam raw = false) :
    ∃ v, validateParam raw dflt lo hi msg = Except.ok v := by
  cases raw with
  | none => exact ⟨dflt, rfl⟩
  | some s =>
      cases hp : jsParseInt s with
      | none => simp [badParam, hp] at h
      | some n =>
          simp only [badParam, hp, decide_eq_false_iff_not] at h
          refine ⟨clampInt lo hi n, ?_⟩
          simp only [validateParam, hp]
          rw [if_neg h]

lemma thumbnailsHandler_invalid (store : String → Option StoredObject)
    (p : String) (query : Query) (msg : String)
    (hval : validatedParams query = Except.error msg) :
    thumbnailsHandler store p query = (jsonResponse 400 msg, []) := by
  simp only [thumbnailsHandler, hval]

lemma thumbnailsHandler_notFound (store : String → Option StoredObject)
    (p : String) (query : Query) (whq : Int × Int × Int)
    (hval : validatedParams query = Except.ok whq)
    (hobj : store ("/objects/" ++ p) = none) :
    thumbnailsHandler store p query =
      (jsonResponse 404 "Object not found",
       [Event.getObjectEntityFile ("/objects/" ++ p)]) := by
  simp only [thumbnailsHandler, hval, hobj]

lemma thumbnailsHandler_ok (store : String → Option StoredObject)
    (p : String) (query : Query) (whq : Int × Int × Int) (obj : StoredObject)
    (hval : validatedParams query = Except.ok whq)
    (hobj : store ("/objects/" ++ p) = some obj) :
    thumbnailsHandler store p query =
      thumbnailsCore obj ("/objects/" ++ p) whq.1 whq.2.1 whq.2.2 := by
  simp only [thumbnailsHandler, hval, hobj]

lemma thumbnailsCore_too_large (obj : StoredObject) (objectPath : String)
    (width height quality : Int)
    (h : jsParseIntOrZero obj.size > 15 * 1024 * 1024) :
    thumbnailsCore obj objectPath width height quality =
      (jsonResponse 400 "File too large for thumbnail generation",
       [Event.getObjectEntityFile objectPath, Event.getMetadata]) := by
  simp only [thumbnailsCore]
  rw [if_pos h]

lemma thumbnailsCore_passthrough (obj : StoredObject) (objectPath : String)
    (width height quality : Int)
    (hsz : ¬ jsParseIntOrZero obj.size > 15 * 1024 * 1024)
    (hni : strStartsWith (obj.contentType.getD "application/octet-stream") "image/" = false) :
    thumbnailsCore obj objectPath width height quality =
      ((downloadObject obj).fst,
       [Event.getObjectEntityFile objectPath, Event.getMetadata] ++ (downloadObject obj).snd) := by
  simp only [thumbnailsCore]
  rw [if_neg hsz]
  simp [hni]

lemma thumbnailsCore_transform (obj : StoredObject) (objectPath : String)
    (width height quality : Int)
    (hsz : ¬ jsParseIntOrZero obj.size > 15 * 1024 * 1024)
    (him : strStartsWith (obj.contentType.getD "application/octet-stream") "image/" = true) :
    thumbnailsCore obj objectPath width height quality =
      ({ status := 200,
         headers := [("Content-Type", "image/jpeg"),
                     ("Cache-Control", "public, max-age=31536000")],
         body := ResponseBody.transformed (mkTransformer width height quality) obj.bytes },
       [Event.getObjectEntityFile objectPath, Event.getMetadata,
        Event.setHeader "Content-Type" "image/jpeg",
        Event.setHeader "Cache-Control" "public, max-age=31536000",
        Event.createReadStream, Event.transform width height quality,
        Event.writeBody]) := by
  simp only [thumbnailsCore]
  rw [if_neg hsz]
  simp [him]

/-- C8: for every pair of bounds lo ≤ hi and every integer x, the route's
clamp `Math.max(lo, Math.min(hi, x))` is idempotent, and it is the identity
on x already inside [lo, hi]. -/
theorem C8_clamp_idempotent (lo hi x : Int) (hle : lo ≤ hi) :
    clampInt lo hi (clampInt lo hi x) = clampInt lo hi x ∧
    (lo ≤ x → x ≤ hi → clampInt lo hi x = x) := by
  unfold clampInt
  constructor
  · omega
  · intro h1 h2
    omega

theorem C8_witness :
    (10 : Int) ≤ 800 ∧
    clampInt 10 800 (clampInt 10 800 5) = clampInt 10 800 5 := by
  exact ⟨by decide, (C8_clamp_idempotent 10 800 5 (by decide)).1⟩

/-- C2: the claim says error listeners cover every stage of the composed
pipeline. In the code the single `.on("error", ...)` is attached to the
value of `readStream.pipe(transformer).pipe(res)`, which under Node's
`pipe` semantics is the response stage alone, so errors emitted by the
read-stream or transformer stages are not observed; the installed callback
itself answers 500 with a structured body only when headers have not been
sent, and nothing otherwise. -/
theorem C2_error_listener_only_last :
    errorHandledStages = [Stage.response] ∧
    Stage.readStream ∈ pipelineStages ∧ Stage.readStream ∉ errorHandledStages ∧
    Stage.transformer ∈ pipelineStages ∧ Stage.transformer ∉ errorHandledStages ∧
    streamErrorReaction false = some (jsonResponse 500 "Failed to process thumbnail") ∧
    streamErrorReaction true = none := by
  refine ⟨rfl, by decide, by decide, by decide, by decide, rfl, rfl⟩

/-- Relation between a raw optional parameter string and its parsed value:
absent, or present and parsing (via JS `parseInt`) as a positive integer. -/
def parsesPositive (raw : Option String) (v : Option Int) : Prop :=
  match raw, v with
  | none, none => True
  | some s, some n => jsParseInt s = some n ∧ 0 < n
  | _, _ => False

lemma validateParam_of_parsesPositive (raw : Option String) (v : Option Int)
    (dflt lo hi : Int) (msg : String) (hp : parsesPositive raw v) :
    validateParam raw dflt lo hi msg =
      Except.ok ((v.map (clampInt lo hi)).getD dflt) := by
  cases raw with
  | none =>
      cases v with
      | none => rfl
      | some n => simp [parsesPositive] at hp
  | some s =>
      cases v with
      | none => simp [parsesPositive] at hp
      | some n =>
          obtain ⟨hparse, hpos⟩ := hp
          simp only [validateParam, hparse]
          rw [if_neg (by omega)]
          rfl

/-- C3: whenever each present raw parameter parses as a positive integer,
the validator yields the clamped value for each present parameter and the
fixed default for each absent one (width into [10,800] default 400, height
into [10,800] default 300, quality into [10,90] default 75); in particular
w=5 clamps to 10 and w=5000 clamps to 800. -/
theorem C3_validator_clamps (query : Query) (wv hv qv : Option Int)
    (hw : parsesPositive query.w wv) (hh : parsesPositive query.h hv)
    (hq : parsesPositive query.q qv) :
    validatedParams query = Except.ok
      ((wv.map (clampInt MIN_SIZE MAX_SIZE)).getD DEFAULT_WIDTH,
       (hv.map (clampInt MIN_SIZE MAX_SIZE)).getD DEFAULT_HEIGHT,
       (qv.map (clampInt MIN_QUALITY MAX_QUALITY)).getD DEFAULT_QUALITY) ∧
    validatedParams { w := some "5", h := none, q := none } = Except.ok (10, 300, 75) ∧
    validatedParams { w := some "5000", h := none, q := none } = Except.ok (800, 300, 75) := by
  refine ⟨?_, by rfl, by rfl⟩
  have h1 := validateParam_of_parsesPositive query.w wv DEFAULT_WIDTH MIN_SIZE MAX_SIZE
    "Invalid width parameter" hw
  have h2 := validateParam_of_parsesPositive query.h hv DEFAULT_HEIGHT MIN_SIZE MAX_SIZE
    "Invalid height parameter" hh
  have h3 := validateParam_of_parsesPositive query.q qv DEFAULT_QUALITY MIN_QUALITY MAX_QUALITY
    "Invalid quality parameter" hq
  simp only [validatedParams, h1, h2, h3]

theorem C3_witness :
    validatedParams { w := some "20", h := none, q := some "95" } = Except.ok (20, 300, 90) := by
  have h := C3_validator_clamps { w := some "20", h := none, q := some "95" }
    (some 20) none (some 95) ⟨by rfl, by decide⟩ trivial ⟨by rfl, by decide⟩
  exact h.1.trans rfl

/-- C1: when the stored object's metadata reports a size strictly greater
than 15*1024*1024 bytes, the handler (once the request reaches the guard,
i.e. its parameters validate) answers 400 with the size-rejection body, its
trace ends at the metadata fetch, and no read stream is ever opened: the
size check sits after `getMetadata` and strictly before `createReadStream`. -/
theorem C1_size_guard (store : String → Option StoredObject) (p : String)
    (query : Query) (obj : StoredObject) (whq : Int × Int × Int)
    (s : String) (n : Int)
    (hval : validatedParams query = Except.ok whq)
    (hobj : store ("/objects/" ++ p) = some obj)
    (hsize : obj.size = some s)
    (hparse : jsParseInt s = some n)
    (hbig : n > 15 * 1024 * 1024) :
    thumbnailsHandler store p query =
      (jsonResponse 400 "File too large for thumbnail generation",
       [Event.getObjectEntityFile ("/objects/" ++ p), Event.getMetadata]) ∧
    Event.createReadStream ∉ (thumbnailsHandler store p query).snd := by
  have hfs : jsParseIntOrZero obj.size > 15 * 1024 * 1024 := by
    rw [hsize]
    simp only [jsParseIntOrZero, hparse]
    rw [if_neg (by omega)]
    exact hbig
  have hmain := (thumbnailsHandler_ok store p query whq obj hval hobj).trans
    (thumbnailsCore_too_large obj ("/objects/" ++ p) whq.1 whq.2.1 whq.2.2 hfs)
  refine ⟨hmain, ?_⟩
  rw [hmain]
  simp

/-- A store holding one object one byte over the 15 MiB ceiling. -/
def bigStore : String → Option StoredObject := fun path =>
  if path = "/objects/big.jpg" then
    some { contentType := some "image/jpeg", size := some "15728641", bytes := [1, 2, 3] }
  else none

theorem C1_witness :
    thumbnailsHandler bigStore "big.jpg" { w := none, h := none, q := none } =
      (jsonResponse 400 "File too large for thumbnail generation",
       [Event.getObjectEntityFile ("/objects/" ++ "big.jpg"), Event.getMetadata]) ∧
    Event.createReadStream ∉
      (thumbnailsHandler bigStore "big.jpg" { w := none, h := none, q := none }).snd := by
  exact C1_size_guard bigStore "big.jpg" { w := none, h := none, q := none }
    { contentType := some "image/jpeg", size := some "15728641", bytes := [1, 2, 3] }
    (400, 300, 75) "15728641" 15728641 (by rfl) (by rfl) rfl (by rfl) (by decide)

/-- C4: when some present raw parameter fails the positive-integer check
(NaN or non-positive), the handler returns 400 at once with the message of
the first failing field in source order (width, height, quality), with an
empty effect trace: no object lookup and no metadata fetch ever happen, and
no clamped value is produced. -/
theorem C4_invalid_param (store : String → Option StoredObject) (p : String)
    (query : Query)
    (hbad : (badParam query.w || badParam query.h || badParam query.q) = true) :
    thumbnailsHandler store p query =
      (jsonResponse 400
        (if badParam query.w then "Invalid width parameter"
         else if badParam query.h then "Invalid height parameter"
         else "Invalid quality parameter"), []) ∧
    (∀ path, Event.getObjectEntityFile path ∉ (thumbnailsHandler store p query).snd) ∧
    Event.getMetadata ∉ (thumbnailsHandler store p query).snd := by
  have key : validatedParams query = Except.error
      (if badParam query.w then "Invalid width parameter"
       else if badParam query.h then "Invalid height parameter"
       else "Invalid quality parameter") := by
    by_cases hw : badParam query.w = true
    · rw [if_pos hw]
      unfold validatedParams
      rw [validateParam_error_of_bad query.w _ _ _ _ hw]
    · have hw2 : badParam query.w = false := by simpa using hw
      rw [if_neg hw]
      obtain ⟨wv, hwv⟩ := validateParam_ok_of_good query.w DEFAULT_WIDTH MIN_SIZE MAX_SIZE
        "Invalid width parameter" hw2
      by_cases hh : badParam query.h = true
      · rw [if_pos hh]
        unfold validatedParams
        rw [hwv, validateParam_error_of_bad query.h _ _ _ _ hh]
      · have hh2 : badParam query.h = false := by simpa using hh
        rw [if_neg hh]
        obtain ⟨hv, hhv⟩ := validateParam_ok_of_good query.h DEFAULT_HEIGHT MIN_SIZE MAX_SIZE
          "Invalid height parameter" hh2
        have hq : badParam query.q = true := by
          rcases Bool.or_eq_true_iff.mp hbad with h | h
          · rcases Bool.or_eq_true_iff.mp h with h1 | h1
            · exact absurd h1 hw
            · exact absurd h1 hh
          · exact h
        unfold validatedParams
        rw [hwv, hhv, validateParam_error_of_bad query.q _ _ _ _ hq]
  have hmain := thumbnailsHandler_invalid store p query _ key
  refine ⟨hmain, ?_, ?_⟩ <;> rw [hmain] <;> simp

theorem C4_witness :
    thumbnailsHandler (fun _ => none) "x" { w := some "abc", h := none, q := none } =
      (jsonResponse 400 "Invalid width parameter", []) := by
  have h := C4_invalid_param (fun _ => none) "x"
    { w := some "abc", h := none, q := none } (by decide)
  exact h.1

/-- C7: when the object path does not exist in the store (modelled from the
spec: `getObjectEntityFile` signals NotFound, which the route's catch turns
into the 404 response), the handler answers 404 with exactly the body
`\x7b"error":"Object not found"\x7d`, and its trace holds no header write,
no body write and no read stream: no partial response is ever started. -/
theorem C7_not_found (store : String → Option StoredObject) (p : String)
    (query : Query) (whq : Int × Int × Int)
    (hval : validatedParams query = Except.ok whq)
    (hmiss : store ("/objects/" ++ p) = none) :
    thumbnailsHandler store p query =
      (jsonResponse 404 "Object not found",
       [Event.getObjectEntityFile ("/objects/" ++ p)]) ∧
    (thumbnailsHandler store p query).fst.body =
      ResponseBody.json "\x7b\"error\":\"Object not found\"\x7d" ∧
    Event.writeBody ∉ (thumbnailsHandler store p query).snd ∧
    Event.createReadStream ∉ (thumbnailsHandler store p query).snd ∧
    (∀ name value, Event.setHeader name value ∉ (thumbnailsHandler store p query).snd) := by
  have hmain := thumbnailsHandler_notFound store p query whq hval hmiss
  refine ⟨hmain, ?_, ?_, ?_, ?_⟩
  · rw [hmain]; rfl
  · rw [hmain]; simp
  · rw [hmain]; simp
  · intro name value; rw [hmain]; simp

/-- A store with no objects at all. -/
def emptyStore : String → Option StoredObject := fun _ => none

theorem C7_witness :
    thumbnailsHandler emptyStore "missing.png" { w := none, h := none, q := none } =
      (jsonResponse 404 "Object not found",
       [Event.getObjectEntityFile ("/objects/" ++ "missing.png")]) := by
  exact (C7_not_found emptyStore "missing.png" { w := none, h := none, q := none }
    (400, 300, 75) (by rfl) (by rfl)).1

/-- C5: a stored object whose content type does not start with "image/"
(and which passes the size ceiling) is answered through the same
`downloadObject` path as the plain `GET /objects/...` endpoint: identical
response, the original bytes streamed unmodified, the original content-type
preserved, and the transform stage never entered (no read stream, no sharp
transformer in the trace). -/
theorem C5_nonimage_passthrough (store : String → Option StoredObject)
    (p : String) (query : Query) (obj : StoredObject) (whq : Int × Int × Int)
    (ct : String)
    (hval : validatedParams query = Except.ok whq)
    (hobj : store ("/objects/" ++ p) = some obj)
    (hct : obj.contentType = some ct)
    (hni : strStartsWith ct "image/" = false)
    (hsz : jsParseIntOrZero obj.size ≤ 15 * 1024 * 1024) :
    (thumbnailsHandler store p query).fst = (objectsHandler store ("/objects/" ++ p)).fst ∧
    (thumbnailsHandler store p query).fst.body = ResponseBody.streamedBytes obj.bytes ∧
    (thumbnailsHandler store p query).fst.status = 200 ∧
    headerValue (thumbnailsHandler store p query).fst "Content-Type" = some ct ∧
    (∀ w h q, Event.transform w h q ∉ (thumbnailsHandler store p query).snd) ∧
    Event.createReadStream ∉ (thumbnailsHandler store p query).snd := by
  have hni2 : strStartsWith (obj.contentType.getD "application/octet-stream") "image/" = false := by
    rw [hct]
    exact hni
  have hmain := (thumbnailsHandler_ok store p query whq obj hval hobj).trans
    (thumbnailsCore_passthrough obj ("/objects/" ++ p) whq.1 whq.2.1 whq.2.2 (by omega) hni2)
  have hoh : objectsHandler store ("/objects/" ++ p) =
      ((downloadObject obj).fst,
       Event.getObjectEntityFile ("/objects/" ++ p) :: (downloadObject obj).snd) := by
    simp only [objectsHandler, hobj]
  refine ⟨?_, ?_, ?_, ?_, ?_, ?_⟩
  · rw [hmain, hoh]
  · rw [hmain]; simp [downloadObject]
  · rw [hmain]; simp [downloadObject]
  · rw [hmain]; simp [downloadObject, headerValue, lookupHeader, hct]
  · intro w h q; rw [hmain]; simp [downloadObject]
  · rw [hmain]; simp [downloadObject]

/-- A store holding one non-image object. -/
def pdfStore : String → Option StoredObject := fun path =>
  if path = "/objects/doc.pdf" then
    some { contentType := some "application/pdf", size := some "100", bytes := [9, 8] }
  else none

theorem C5_witness :
    (thumbnailsHandler pdfStore "doc.pdf" { w := none, h := none, q := none }).fst =
      (objectsHandler pdfStore ("/objects/" ++ "doc.pdf")).fst ∧
    (thumbnailsHandler pdfStore "doc.pdf" { w := none, h := none, q := none }).fst.body =
      ResponseBody.streamedBytes [9, 8] := by
  have h := C5_nonimage_passthrough pdfStore "doc.pdf" { w := none, h := none, q := none }
    { contentType := some "application/pdf", size := some "100", bytes := [9, 8] }
    (400, 300, 75) "application/pdf" (by rfl) (by rfl) rfl (by rfl) (by decide)
  exact ⟨h.1, h.2.1⟩

/-- Header-before-body ordering: `setBeforeFirstWrite name value tr` holds
when a `setHeader name value` event occurs strictly before the first
`writeBody` event of the trace. -/
def setBeforeFirstWrite (name value : String) : List Event → Bool
  | [] => false
  | Event.writeBody :: _ => false
  | Event.setHeader n v :: rest =>
      (n == name && v == value) || setBeforeFirstWrite name value rest
  | _ :: rest => setBeforeFirstWrite name value rest

/-- C6: every successful (status 200) run of the thumbnails handler — the
transform branch as well as the passthrough branch — sets its content-type
header (image/jpeg when transformed, the stored object's type on
passthrough) and `Cache-Control: public, max-age=31536000` strictly before
the first body byte is written. -/
theorem C6_headers_before_body (store : String → Option StoredObject)
    (p : String) (query : Query)
    (h200 : (thumbnailsHandler store p query).fst.status = 200) :
    setBeforeFirstWrite "Cache-Control" "public, max-age=31536000"
      (thumbnailsHandler store p query).snd = true ∧
    (∀ ts src, (thumbnailsHandler store p query).fst.body = ResponseBody.transformed ts src →
      setBeforeFirstWrite "Content-Type" "image/jpeg"
        (thumbnailsHandler store p query).snd = true) ∧
    (∀ bs, (thumbnailsHandler store p query).fst.body = ResponseBody.streamedBytes bs →
      ∃ ct, headerValue (thumbnailsHandler store p query).fst "Content-Type" = some ct ∧
        setBeforeFirstWrite "Content-Type" ct (thumbnailsHandler store p query).snd = true) := by
  cases hval : validatedParams query with
  | error msg =>
      rw [thumbnailsHandler_invalid store p query msg hval] at h200
      simp [jsonResponse] at h200
  | ok whq =>
      cases hobj : store ("/objects/" ++ p) with
      | none =>
          rw [thumbnailsHandler_notFound store p query whq hval hobj] at h200
          simp [jsonResponse] at h200
      | some obj =>
          have hmain := thumbnailsHandler_ok store p query whq obj hval hobj
          by_cases hsz : jsParseIntOrZero obj.size > 15 * 1024 * 1024
          · rw [hmain.trans (thumbnailsCore_too_large obj ("/objects/" ++ p)
              whq.1 whq.2.1 whq.2.2 hsz)] at h200
            simp [jsonResponse] at h200
          · by_cases him : strStartsWith (obj.contentType.getD "application/octet-stream") "image/" = true
            · have hM := hmain.trans (thumbnailsCore_transform obj ("/objects/" ++ p)
                whq.1 whq.2.1 whq.2.2 hsz him)
              refine ⟨?_, ?_, ?_⟩
              · rw [hM]; simp [setBeforeFirstWrite]
              · intro ts src hbody; rw [hM]; simp [setBeforeFirstWrite]
              · intro bs hbody
                rw [hM] at hbody
                simp at hbody
            · have hM := hmain.trans (thumbnailsCore_passthrough obj ("/objects/" ++ p)
                whq.1 whq.2.1 whq.2.2 hsz (by simpa using him))
              refine ⟨?_, ?_, ?_⟩
              · rw [hM]; simp [downloadObject, setBeforeFirstWrite]
              · intro ts src hbody
                rw [hM] at hbody
                simp [downloadObject] at hbody
              · intro bs hbody
                refine ⟨obj.contentType.getD "application/octet-stream", ?_, ?_⟩
                · rw [hM]; simp [downloadObject, headerValue, lookupHeader]
                · rw [hM]; simp [downloadObject, setBeforeFirstWrite]

/-- A store holding one small image object. -/
def imgStore : String → Option StoredObject := fun path =>
  if path = "/objects/pic.png" then
    some { contentType := some "image/png", size := some "100", bytes := [1] }
  else none

theorem C6_witness :
    (thumbnailsHandler imgStore "pic.png" { w := none, h := none, q := none }).fst.status = 200 ∧
    setBeforeFirstWrite "Cache-Control" "public, max-age=31536000"
      (thumbnailsHandler imgStore "pic.png" { w := none, h := none, q := none }).snd = true := by
  exact ⟨by rfl, (C6_headers_before_body imgStore "pic.png"
    { w := none, h := none, q := none } (by rfl)).1⟩

/-- C9: when the stored object's metadata size is absent or does not parse
(JS NaN), `parseInt(size) || 0` makes the guard see 0 bytes, so the 15 MiB
ceiling never rejects such an object and the handler proceeds to the
passthrough or transform stage (a 200 response) regardless of actual size. -/
theorem C9_size_fallback (store : String → Option StoredObject) (p : String)
    (query : Query) (obj : StoredObject) (whq : Int × Int × Int)
    (hval : validatedParams query = Except.ok whq)
    (hobj : store ("/objects/" ++ p) = some obj)
    (hsz : obj.size = none ∨ ∃ s, obj.size = some s ∧ jsParseInt s = none) :
    jsParseIntOrZero obj.size = 0 ∧
    (thumbnailsHandler store p query).fst ≠
      jsonResponse 400 "File too large for thumbnail generation" ∧
    (thumbnailsHandler store p query).fst.status = 200 ∧
    ((∃ bs, (thumbnailsHandler store p query).fst.body = ResponseBody.streamedBytes bs) ∨
     (∃ ts src, (thumbnailsHandler store p query).fst.body = ResponseBody.transformed ts src)) := by
  have h0 : jsParseIntOrZero obj.size = 0 := by
    rcases hsz with h | ⟨s, hs, hp⟩
    · rw [h]; rfl
    · rw [hs]; simp [jsParseIntOrZero, hp]
  have hnot : ¬ jsParseIntOrZero obj.size > 15 * 1024 * 1024 := by
    rw [h0]; decide
  have hmain := thumbnailsHandler_ok store p query whq obj hval hobj
  by_cases him : strStartsWith (obj.contentType.getD "application/octet-stream") "image/" = true
  · have hM := hmain.trans (thumbnailsCore_transform obj ("/objects/" ++ p)
      whq.1 whq.2.1 whq.2.2 hnot him)
    rw [hM]
    refine ⟨h0, ?_, rfl, Or.inr ⟨_, _, rfl⟩⟩
    simp [jsonResponse]
  · have hM := hmain.trans (thumbnailsCore_passthrough obj ("/objects/" ++ p)
      whq.1 whq.2.1 whq.2.2 hnot (by simpa using him))
    rw [hM]
    refine ⟨h0, ?_, ?_, Or.inl ⟨obj.bytes, ?_⟩⟩ <;> simp [downloadObject, jsonResponse]

/-- A store holding one image object with no usable size metadata. -/
def noSizeStore : String → Option StoredObject := fun path =>
  if path = "/objects/nosize.png" then
    some { contentType := some "image/png", size := none, bytes := [4, 2] }
  else none

theorem C9_witness :
    jsParseIntOrZero none = 0 ∧
    (thumbnailsHandler noSizeStore "nosize.png" { w := none, h := none, q := none }).fst.status = 200 := by
  have h := C9_size_fallback noSizeStore "nosize.png" { w := none, h := none, q := none }
    { contentType := some "image/png", size := none, bytes := [4, 2] }
    (400, 300, 75) (by rfl) (by rfl) (Or.inl rfl)
  exact ⟨h.1, h.2.2.1⟩

lemma takeWhile_append_cons (p : Char → Bool) (ds : List Char) (c : Char)
    (rest : List Char) (hds : ∀ d ∈ ds, p d = true) (hc : p c = false) :
    (ds ++ c :: rest).takeWhile p = ds := by
  induction ds with
  | nil => simp [List.takeWhile_cons, hc]
  | cons d tl ih =>
      have hd := hds d (by simp)
      simp [List.takeWhile_cons, hd, ih (fun x hx => hds x (by simp [hx]))]

lemma parseUnsigned_digits (ds : List Char) (c : Char) (rest : List Char)
    (hds : ∀ d ∈ ds, digitCh d = true) (hne : ds ≠ [])
    (hc : digitCh c = false) (hpos : 0 < digitsVal ds) :
    parseUnsigned (ds ++ c :: rest) = some (digitsVal ds) := by
  obtain ⟨d0, tl, rfl⟩ : ∃ d0 tl, ds = d0 :: tl := by
    cases ds with
    | nil => exact absurd rfl hne
    | cons a l => exact ⟨a, l, rfl⟩
  have hdec : parseDecDigits ((d0 :: tl) ++ c :: rest) = some (digitsVal (d0 :: tl)) := by
    unfold parseDecDigits
    rw [takeWhile_append_cons digitCh (d0 :: tl) c rest hds hc]
    rfl
  cases tl with
  | nil =>
      have h0 : ¬ d0 = '0' := by
        intro h
        rw [h] at hpos
        simp [digitsVal, digitVal] at hpos
      simp only [List.cons_append, List.nil_append, parseUnsigned]
      rw [if_neg (by simp [h0])]
      exact hdec
  | cons d1 tl1 =>
      have hd1 := hds d1 (by simp)
      have hx : ¬ d1 = 'x' := by
        intro h; rw [h] at hd1; exact absurd hd1 (by decide)
      have hX : ¬ d1 = 'X' := by
        intro h; rw [h] at hd1; exact absurd hd1 (by decide)
      simp only [List.cons_append, parseUnsigned]
      rw [if_neg (by simp [hx, hX])]
      exact hdec

lemma jsParseInt_digits (ds : List Char) (c : Char) (rest : List Char)
    (hds : ∀ d ∈ ds, digitCh d = true) (hne : ds ≠ [])
    (hc : digitCh c = false) (hpos : 0 < digitsVal ds) :
    jsParseInt (String.mk (ds ++ c :: rest)) = some ((digitsVal ds : Int)) := by
  obtain ⟨d0, tl, rfl⟩ : ∃ d0 tl, ds = d0 :: tl := by
    cases ds with
    | nil => exact absurd rfl hne
    | cons a l => exact ⟨a, l, rfl⟩
  have hd0 := hds d0 (by simp)
  have h48 : 48 ≤ d0.toNat ∧ d0.toNat ≤ 57 := by
    simpa [digitCh] using hd0
  have hw : whitespaceCh d0 = false := by
    simp only [whitespaceCh, Bool.or_eq_false_iff, decide_eq_false_iff_not]
    omega
  have hminus : ¬ d0 = '-' := by
    intro h; rw [h] at hd0; exact absurd hd0 (by decide)
  have hplus : ¬ d0 = '+' := by
    intro h; rw [h] at hd0; exact absurd hd0 (by decide)
  have hdrop : ((d0 :: tl) ++ c :: rest).dropWhile whitespaceCh =
      (d0 :: tl) ++ c :: rest := by
    rw [List.cons_append, List.dropWhile_cons, hw]
    simp
  simp only [jsParseInt, String.mk, hdrop]
  rw [List.cons_append]
  simp only [jsParseIntCore]
  rw [if_neg hminus, if_neg hplus]
  rw [show d0 :: (tl ++ c :: rest) = (d0 :: tl) ++ c :: rest from rfl]
  rw [parseUnsigned_digits (d0 :: tl) c rest hds hne hc hpos]
  rfl

/-- C10: a raw parameter whose leading characters form a positive decimal
integer followed by a non-digit character is not rejected: JS `parseInt`
extracts the numeric prefix, which the validator then clamps and accepts;
and a present parameter is rejected only when `parseInt` of it yields NaN
or a non-positive value. -/
theorem C10_parseint_numeric_lead (ds rest : List Char) (c : Char)
    (hds : ∀ d ∈ ds, digitCh d = true) (hne : ds ≠ [])
    (hc : digitCh c = false) (hpos : 0 < digitsVal ds) :
    jsParseInt (String.mk (ds ++ c :: rest)) = some ((digitsVal ds : Int)) ∧
    validateParam (some (String.mk (ds ++ c :: rest))) DEFAULT_WIDTH MIN_SIZE MAX_SIZE
      "Invalid width parameter" =
      Except.ok (clampInt MIN_SIZE MAX_SIZE ((digitsVal ds : Int))) ∧
    (∀ s dflt lo hi msg m2, validateParam (some s) dflt lo hi msg = Except.error m2 →
      jsParseInt s = none ∨ ∃ k, jsParseInt s = some k ∧ k ≤ 0) := by
  have hjs := jsParseInt_digits ds c rest hds hne hc hpos
  refine ⟨hjs, ?_, ?_⟩
  · simp only [validateParam, hjs]
    have hpos2 : ¬ ((digitsVal ds : Int) ≤ 0) := by omega
    rw [if_neg hpos2]
  · intro s dflt lo hi msg m2 herr
    cases hp : jsParseInt s with
    | none => exact Or.inl rfl
    | some k =>
        right
        refine ⟨k, rfl, ?_⟩
        by_contra hk
        simp only [validateParam, hp] at herr
        rw [if_neg hk] at herr
        exact Except.noConfusion herr

theorem C10_witness :
    jsParseInt (String.mk (['5'] ++ 'a' :: ['b', 'c'])) = some 5 ∧
    validateParam (some (String.mk (['5'] ++ 'a' :: ['b', 'c']))) DEFAULT_WIDTH MIN_SIZE
      MAX_SIZE "Invalid width parameter" = Except.ok 10 := by
  have h := C10_parseint_numeric_lead ['5'] ['b', 'c'] 'a'
    (by decide) (by decide) (by decide) (by decide)
  exact ⟨h.1.trans rfl, h.2.1.trans rfl⟩
